import Mathlib

/-!
Shallow embedding of the CS2 demo anti-cheat analyzer (src/analyzer.py).

Modelling conventions:
* Python floats are modelled as exact rationals (ℚ); all the analyzer's
  arithmetic on tick counts is exact in binary floating point for the tick
  rates the code detects (64 and 128), so the rational model is faithful.
* Python `round` (banker's rounding, half to even) is `pyRound`;
  `round(x, 1)` is `pyRound1`; `int()` truncation toward zero is `pyInt`.
* pandas dataframes become lists of row structures whose field names match
  the event columns; `sort_values("tick")` becomes a stable insertion sort
  by tick; `sorted(set(..))` becomes dedup + sort.
* The demo parser's per-tick queries (`parser.parse_ticks`) become sparse
  lookup functions returning `Option` (a `none` models a tick for which the
  parser returned no row for that player).
* The trigonometric view-angle computation `_angle_between_deg` (float
  `acos`/`sqrt`) is abstracted as an explicit function parameter
  `angleOf : Pose → Pose → ℚ` giving the angle in degrees between the
  attacker's view direction and the attacker→victim vector; the claims
  under study quantify over the resulting angles, never over the
  trigonometry itself.  Likewise the Euclidean pitch/yaw combination
  `sqrt(dp^2+dy^2)` in the aim-snap detector is a parameter `combine`.
-/

-- ═══ Definitions ═══════════════════════════════════════════════════════════

/-- Python `round`: round half to even (banker's rounding) on an exact rational. -/
def pyRound (q : ℚ) : ℤ :=
  if q - (Rat.floor q : ℚ) < 1/2 then Rat.floor q
  else if 1/2 < q - (Rat.floor q : ℚ) then Rat.floor q + 1
  else if Rat.floor q % 2 = 0 then Rat.floor q else Rat.floor q + 1

/-- Python `round(x, 1)`: banker's rounding to one decimal digit. -/
def pyRound1 (q : ℚ) : ℚ := (pyRound (q * 10) : ℚ) / 10

/-- Python `int()`: truncation toward zero. -/
def pyInt (q : ℚ) : ℤ := if 0 ≤ q then Rat.floor q else Rat.ceil q

/-- Mean of a list of rationals (`np.mean`); `0` on the empty list (never used there). -/
def listMean (l : List ℚ) : ℚ := l.sum / (l.length : ℚ)

/-- Population variance of a list of rationals (`np.var`). -/
def listVar (l : List ℚ) : ℚ :=
  (l.map (fun x => (x - listMean l) ^ 2)).sum / (l.length : ℚ)

/-- Maximum of a list of rationals (`np.max`), `none` on the empty list. -/
def listMax : List ℚ → Option ℚ
  | [] => none
  | x :: xs => some (xs.foldl max x)

/-- Minimum of a list of rationals (`np.min`), `none` on the empty list. -/
def listMin : List ℚ → Option ℚ
  | [] => none
  | x :: xs => some (xs.foldl min x)

/-- Mean of a list of integers, as a rational. -/
def intMean (l : List ℤ) : ℚ := ((l.sum : ℤ) : ℚ) / (l.length : ℚ)

/-- Minimum of a list of integers, `none` on the empty list. -/
def intListMin : List ℤ → Option ℤ
  | [] => none
  | x :: xs => some (xs.foldl min x)

/-- ASCII lower-casing of one character (Python `str.lower` on the ASCII range). -/
def lowerChar (c : Char) : Char :=
  if 65 ≤ c.toNat ∧ c.toNat ≤ 90 then Char.ofNat (c.toNat + 32) else c

/-- Character list of `s.lower()`. -/
def strLower (s : String) : List Char := s.data.map lowerChar

/-- Substring containment on character lists (Python `needle in hay`). -/
def listContainsSub (needle hay : List Char) : Bool :=
  (List.range (hay.length + 1)).any (fun i => decide ((hay.drop i).take needle.length = needle))

/-- Python `k in w.lower()` for a (lower-case) keyword literal `k`. -/
def kwInLower (k : String) (w : String) : Bool := listContainsSub k.data (strLower w)

-- ── Round building (build_rounds) ─────────────────────────────────────────────

/-- Round tick range, as built by `build_rounds` (the per-round CT/T score
sampling in the source touches only the score fields, never the tick range,
and is omitted). -/
structure RoundR where
  round_num : ℤ
  start_tick : ℤ
  end_tick : ℤ
deriving DecidableEq

instance decRelIntLe : DecidableRel (fun (a b : ℤ) => a ≤ b) := fun a b => Int.decLe a b

/-- Embedding of `build_rounds` (analyzer.py lines 81-100): for each sorted
round-freeze-end tick, the end is the first strictly later round-ended tick,
or start + 20000 when none exists. -/
def build_rounds (freeze_ticks ended_ticks : List ℤ) : List RoundR :=
  (freeze_ticks.insertionSort (fun a b => a ≤ b)).enum.map (fun p =>
    { round_num := (p.1 : ℤ) + 1
      start_tick := p.2
      end_tick :=
        match ((ended_ticks.dedup).insertionSort (fun a b => a ≤ b)).find?
            (fun et => decide (p.2 < et)) with
        | some et => et
        | none => p.2 + 20000 })

-- ── Tickrate detection (detect_tickrate) ──────────────────────────────────────

/-- Demo header fields used by `detect_tickrate`; `none` models a missing key
(Python `header.get(key, 0)` then yields the default 0, and the `except`
fallback likewise returns 64). -/
structure DemoHeader where
  playback_ticks : Option ℚ
  playback_time : Option ℚ

/-- Embedding of `detect_tickrate` (analyzer.py lines 65-76). -/
def detect_tickrate (h : DemoHeader) : ℕ :=
  if 0 < h.playback_ticks.getD 0 ∧ 0 < h.playback_time.getD 0 ∧
      100 ≤ pyRound (h.playback_ticks.getD 0 / h.playback_time.getD 0)
  then 128 else 64

-- ── Engagement reconstruction (compute_engagements) ───────────────────────────

/-- Per-tick player state sample, as stored in the analyzer's `player_ticks`
dictionary: position, view pitch/yaw, alive flag. -/
structure Pose where
  x : ℚ
  y : ℚ
  z : ℚ
  pitch : ℚ
  yaw : ℚ
  is_alive : Bool
deriving DecidableEq

/-- Half-angle of the FOV cone in degrees (analyzer.py `FOV_HALF_DEG = 40`). -/
def FOV_HALF_DEG : ℚ := 40

/-- Lookback window in ticks at 64 tick (analyzer.py `LOOKBACK_TICKS = 192`). -/
def LOOKBACK_TICKS : ℚ := 192

/-- Python `atk_ticks.get(closest_t) or atk_ticks.get(t)` (pose tuples are
always truthy, so `or` is an option-orelse). -/
def lookupPose (m : ℤ → Option Pose) (ct t : ℤ) : Option Pose :=
  match m ct with
  | some p => some p
  | none => m t

/-- Python `range(dmg_tick, max(0, dmg_tick - lookback), -LOOKBACK_STEP)` with
`LOOKBACK_STEP = 2`. -/
def checkTicks (dmg_tick lookback : ℤ) : List ℤ :=
  (List.range (((dmg_tick - max 0 (dmg_tick - lookback)).toNat + 1) / 2)).map
    (fun i : ℕ => dmg_tick - 2 * (i : ℤ))

/-- The backward FOV scan loop of `compute_engagements` (analyzer.py lines
240-257): walk the check ticks, skip ticks with a missing pose sample, stop at
a dead attacker or victim, extend the in-cone candidate backward, and stop the
moment the angle leaves the cone after a candidate was set. -/
def fovScanAux (angleOf : Pose → Pose → ℚ) (atk_ticks vic_ticks : ℤ → Option Pose) :
    List ℤ → Option ℤ → Option ℤ
  | [], cand => cand
  | t :: rest, cand =>
    match lookupPose atk_ticks (t - t % 2) t, lookupPose vic_ticks (t - t % 2) t with
    | some a, some v =>
      if a.is_alive = false ∨ v.is_alive = false then cand
      else if angleOf a v ≤ FOV_HALF_DEG then
        fovScanAux angleOf atk_ticks vic_ticks rest
          (some (if (atk_ticks (t - t % 2)).isSome then t - t % 2 else t))
      else if cand.isSome then cand
      else fovScanAux angleOf atk_ticks vic_ticks rest cand
    | _, _ => fovScanAux angleOf atk_ticks vic_ticks rest cand

/-- Result of the backward FOV scan: the `first_in_fov_tick` candidate. -/
def firstInFovTick (angleOf : Pose → Pose → ℚ) (atk_ticks vic_ticks : ℤ → Option Pose)
    (dmg_tick lookback : ℤ) : Option ℤ :=
  fovScanAux angleOf atk_ticks vic_ticks (checkTicks dmg_tick lookback) none

/-- Weapon-fire event row (`weapon_fire` event columns used by the analyzer). -/
structure FireRow where
  tick : ℤ
  user_steamid : String
  weapon : String
deriving DecidableEq

/-- Keywords excluding melee and utility weapons from fire correlation
(analyzer.py lines 218-221). -/
def FIRE_EXCLUDED_KEYWORDS : List String :=
  ["knife", "bayonet", "nade", "flash", "smoke", "molotov", "incgrenade", "decoy", "c4"]

/-- Python `any(k in w.lower() for k in [...])` over the fire-exclusion keywords. -/
def fireWeaponExcluded (w : String) : Bool :=
  FIRE_EXCLUDED_KEYWORDS.any (fun k => kwInLower k w)

/-- The attacker's sorted fire-tick list `fire_by_player[sid]` (analyzer.py
lines 214-224): ticks of non-excluded weapon fires by `sid`, sorted ascending. -/
def fire_ticks_for (fires : List FireRow) (sid : String) : List ℤ :=
  ((fires.filter (fun f => decide (f.user_steamid = sid ∧ f.user_steamid ≠ "" ∧
      fireWeaponExcluded f.weapon = false))).map (fun f => f.tick)).insertionSort
    (fun a b => a ≤ b)

/-- One reconstructed engagement (analyzer.py lines 272-280). -/
structure Engagement where
  round_num : ℤ
  victim : String
  damage_tick : ℤ
  sight_tick : ℤ
  sight_to_damage_ms : ℤ
  sight_to_fire_ms : Option ℤ
  fire_to_damage_ms : Option ℤ
deriving DecidableEq

/-- Per-contact engagement construction (analyzer.py lines 237-280): backward
FOV scan, discard when no sight tick strictly before damage is found, then
correlate the first fire tick in `[sight_tick, damage_tick]`. -/
def mkEngagement (tick_rate : ℚ) (angleOf : Pose → Pose → ℚ)
    (atk_ticks vic_ticks : ℤ → Option Pose) (fire_ticks : List ℤ)
    (round_num : ℤ) (victim : String) (dmg_tick lookback : ℤ) : Option Engagement :=
  match firstInFovTick angleOf atk_ticks vic_ticks dmg_tick lookback with
  | none => none
  | some s =>
    if dmg_tick ≤ s then none
    else
      match fire_ticks.find? (fun ft => decide (s ≤ ft ∧ ft ≤ dmg_tick)) with
      | some ft =>
        some { round_num := round_num, victim := victim, damage_tick := dmg_tick,
               sight_tick := s,
               sight_to_damage_ms := pyRound (((dmg_tick - s : ℤ) : ℚ) / tick_rate * 1000),
               sight_to_fire_ms := some (pyRound (((ft - s : ℤ) : ℚ) / tick_rate * 1000)),
               fire_to_damage_ms := some (pyRound (((dmg_tick - ft : ℤ) : ℚ) / tick_rate * 1000)) }
      | none =>
        some { round_num := round_num, victim := victim, damage_tick := dmg_tick,
               sight_tick := s,
               sight_to_damage_ms := pyRound (((dmg_tick - s : ℤ) : ℚ) / tick_rate * 1000),
               sight_to_fire_ms := none, fire_to_damage_ms := none }

/-- Damage event row (`player_hurt` event columns used by the analyzer). -/
structure HurtRow where
  tick : ℤ
  attacker_steamid : String
  user_steamid : String
  weapon : String
deriving DecidableEq

instance decRelHurtTickLe : DecidableRel (fun (a b : HurtRow) => a.tick ≤ b.tick) :=
  fun a b => Int.decLe a.tick b.tick

/-- First-contact per ordered (attacker, victim) pair per round. -/
structure Contact where
  attacker : String
  victim : String
  damage_tick : ℤ
  round_num : ℤ
deriving DecidableEq

/-- Contact extraction for one round (analyzer.py lines 166-187): walk
in-round damage events in tick order, skip empty/world/self attackers, keep
the first event per ordered (attacker, victim) pair. -/
def round_contacts (hurts : List HurtRow) (r : RoundR) : List Contact :=
  (((hurts.filter (fun h => decide (r.start_tick ≤ h.tick ∧ h.tick ≤ r.end_tick))).insertionSort
      (fun a b => a.tick ≤ b.tick)).foldl
    (fun acc h =>
      if h.attacker_steamid = "" ∨ h.attacker_steamid = "0" ∨
          h.attacker_steamid = h.user_steamid then acc
      else if (h.attacker_steamid, h.user_steamid) ∈ acc.1 then acc
      else ((h.attacker_steamid, h.user_steamid) :: acc.1,
            acc.2 ++ [{ attacker := h.attacker_steamid, victim := h.user_steamid,
                        damage_tick := h.tick, round_num := r.round_num }]))
    ([], [])).2

/-- All contacts across rounds, in round order. -/
def extract_contacts (hurts : List HurtRow) (rounds : List RoundR) : List Contact :=
  rounds.flatMap (fun r => round_contacts hurts r)

/-- Embedding of `compute_engagements` (analyzer.py lines 156-282), flattening
the per-attacker dictionary into (attacker, engagement) pairs.  `player_ticks`
models the batched pose query result; a contact whose attacker or victim has
no pose data produces no engagement both in the source (the empty-dict check)
and here (the scan finds no candidate). -/
def compute_engagements (tick_rate : ℚ) (angleOf : Pose → Pose → ℚ)
    (player_ticks : String → ℤ → Option Pose)
    (hurts : List HurtRow) (fires : List FireRow) (rounds : List RoundR) :
    List (String × Engagement) :=
  (extract_contacts hurts rounds).filterMap (fun c =>
    (mkEngagement tick_rate angleOf (player_ticks c.attacker) (player_ticks c.victim)
        (fire_ticks_for fires c.attacker) c.round_num c.victim c.damage_tick
        (pyInt (LOOKBACK_TICKS * tick_rate / 64))).map (fun e => (c.attacker, e)))

-- ── C6: fire correlation ──────────────────────────────────────────────────────

instance isTotalIntLeFun : IsTotal ℤ (fun a b : ℤ => a ≤ b) := ⟨fun a b => le_total a b⟩

instance isTransIntLeFun : IsTrans ℤ (fun a b : ℤ => a ≤ b) :=
  ⟨fun _ _ _ h1 h2 => le_trans h1 h2⟩

/-- Concrete engagement used to witness the fire-correlation claim. -/
def engW6 : Engagement :=
  { round_num := 1, victim := "v", damage_tick := 50, sight_tick := 2,
    sight_to_damage_ms := 750, sight_to_fire_ms := some 594, fire_to_damage_ms := some 156 }

/-- Concrete weapon-fire table used to witness the fire-correlation claim. -/
def firesW6 : List FireRow := [{ tick := 40, user_steamid := "a", weapon := "ak47" }]

-- ── Anti-cheat suspicion scoring (compute_anticheat_metrics) ──────────────────

/-- Kill event row (`player_death` event columns used by the analyzer). -/
structure KillRow where
  tick : ℤ
  attacker_steamid : String
  user_steamid : String
  headshot : Bool
  thrusmoke : Bool
deriving DecidableEq

/-- `fire_bullets` event row; only the shooter column is used (rows are
counted). -/
structure BulletRow where
  user_steamid : String
deriving DecidableEq

/-- `player_kills = kills_df[(attacker == sid) & (user != sid)]`
(analyzer.py lines 293-296). -/
def player_kills (kills : List KillRow) (sid : String) : List KillRow :=
  kills.filter (fun k => decide (k.attacker_steamid = sid ∧ k.user_steamid ≠ sid))

/-- `MIN_REACTION_TICKS = max(3, int(3 * tick_rate / 64))` (analyzer.py line
299). -/
def MIN_REACTION_TICKS (tick_rate : ℚ) : ℤ := max 3 (pyInt (3 * tick_rate / 64))

/-- Stable sort of damage rows by tick (`sort_values("tick")`). -/
def sortHurtsByTick (l : List HurtRow) : List HurtRow :=
  l.insertionSort (fun a b => a.tick ≤ b.tick)

/-- Inner loop of the reaction-time signal (analyzer.py lines 308-325): walk
this player's in-round damage-taken rows in tick order; for each first hurt by
a new attacker, take the first retaliation row of this player against that
attacker within the follow-up window, and record it when the gap meets the
minimum; the attacker is marked seen only on success. -/
def reactionFold (hurts : List HurtRow) (sid : String) (tick_rate : ℚ) :
    List HurtRow → List String → List ℚ → List ℚ
  | [], _, acc => acc
  | hurt :: rest, seen, acc =>
    if hurt.attacker_steamid ∈ seen then reactionFold hurts sid tick_rate rest seen acc
    else
      match (hurts.filter (fun h2 => decide (h2.attacker_steamid = sid ∧
          h2.user_steamid = hurt.attacker_steamid ∧ hurt.tick < h2.tick ∧
          h2.tick ≤ hurt.tick + pyInt (256 * tick_rate / 64)))).head? with
      | none => reactionFold hurts sid tick_rate rest seen acc
      | some h2 =>
        if MIN_REACTION_TICKS tick_rate ≤ h2.tick - hurt.tick then
          reactionFold hurts sid tick_rate rest (hurt.attacker_steamid :: seen)
            (acc ++ [((h2.tick - hurt.tick : ℤ) : ℚ) / tick_rate * 1000])
        else reactionFold hurts sid tick_rate rest seen acc

/-- Reaction-time samples in milliseconds across all rounds (analyzer.py
lines 298-325). -/
def reaction_times (hurts : List HurtRow) (rounds : List RoundR) (sid : String)
    (tick_rate : ℚ) : List ℚ :=
  rounds.flatMap (fun r =>
    reactionFold hurts sid tick_rate
      (sortHurtsByTick (hurts.filter (fun h => decide (h.user_steamid = sid ∧
        r.start_tick ≤ h.tick ∧ h.tick ≤ r.end_tick)))) [] [])

/-- Time-to-first-damage samples in milliseconds per round (analyzer.py lines
330-341). -/
def ttd_values (hurts : List HurtRow) (rounds : List RoundR) (sid : String)
    (tick_rate : ℚ) : List ℚ :=
  rounds.filterMap (fun r =>
    ((sortHurtsByTick (hurts.filter (fun h => decide (h.attacker_steamid = sid ∧
        r.start_tick ≤ h.tick ∧ h.tick ≤ r.end_tick)))).head?).map
      (fun h => ((h.tick - r.start_tick : ℤ) : ℚ) / tick_rate * 1000))

/-- `avg_ttd = np.mean(ttd_values) if ttd_values else None`. -/
def avg_ttd_raw (hurts : List HurtRow) (rounds : List RoundR) (sid : String)
    (tick_rate : ℚ) : Option ℚ :=
  if ttd_values hurts rounds sid tick_rate = [] then none
  else some (listMean (ttd_values hurts rounds sid tick_rate))

/-- Headshot rate percentage (analyzer.py line 347); 0 with no kills. -/
def hs_rate_of (kills : List KillRow) (sid : String) : ℚ :=
  if 0 < (player_kills kills sid).length then
    (((player_kills kills sid).filter (fun k => k.headshot = true)).length : ℚ) /
      ((player_kills kills sid).length : ℚ) * 100
  else 0

/-- Per-round headshot percentages over rounds with at least one kill
(analyzer.py lines 349-356). -/
def hs_per_round (kills : List KillRow) (rounds : List RoundR) (sid : String) : List ℚ :=
  rounds.filterMap (fun r =>
    if 0 < ((player_kills kills sid).filter (fun k => decide (r.start_tick ≤ k.tick ∧
        k.tick ≤ r.end_tick))).length then
      some (((((player_kills kills sid).filter (fun k => decide (r.start_tick ≤ k.tick ∧
          k.tick ≤ r.end_tick))).filter (fun k => k.headshot = true)).length : ℚ) /
        ((((player_kills kills sid).filter (fun k => decide (r.start_tick ≤ k.tick ∧
          k.tick ≤ r.end_tick)))).length : ℚ) * 100)
    else none)

/-- `hs_variance = np.var(hs_per_round) if len > 1 else None` (analyzer.py
line 357). -/
def hs_variance_raw (kills : List KillRow) (rounds : List RoundR) (sid : String) : Option ℚ :=
  if 1 < (hs_per_round kills rounds sid).length then
    some (listVar (hs_per_round kills rounds sid))
  else none

/-- Through-smoke kills of the player (analyzer.py line 360). -/
def smoke_kills_of (kills : List KillRow) (sid : String) : List KillRow :=
  (player_kills kills sid).filter (fun k => k.thrusmoke = true)

/-- Through-smoke kill rate percentage (analyzer.py line 361). -/
def smoke_kill_rate_of (kills : List KillRow) (sid : String) : ℚ :=
  if 0 < (player_kills kills sid).length then
    ((smoke_kills_of kills sid).length : ℚ) / ((player_kills kills sid).length : ℚ) * 100
  else 0

/-- Keywords excluding melee and utility weapons from the accuracy numerator
(analyzer.py lines 367-369; the regex is a plain alternation of substrings). -/
def ACC_EXCLUDED_KEYWORDS : List String :=
  ["knife", "bayonet", "hegrenade", "flashbang", "smokegrenade", "molotov",
   "incgrenade", "decoy", "inferno"]

/-- Case-insensitive keyword match of the accuracy exclusion regex. -/
def hurtWeaponExcluded (w : String) : Bool :=
  ACC_EXCLUDED_KEYWORDS.any (fun k => kwInLower k w)

/-- Damage-causing rows counted by the accuracy numerator (analyzer.py lines
365-371). -/
def player_hurts_acc (hurts : List HurtRow) (sid : String) : List HurtRow :=
  hurts.filter (fun h => decide (h.attacker_steamid = sid ∧
    hurtWeaponExcluded h.weapon = false))

/-- Accuracy percentage: damage rows over bullets fired (analyzer.py line
372); 0 with no recorded bullets. -/
def accuracy_of (hurts : List HurtRow) (bullets : List BulletRow) (sid : String) : ℚ :=
  if 0 < (bullets.filter (fun b => b.user_steamid = sid)).length then
    ((player_hurts_acc hurts sid).length : ℚ) /
      ((bullets.filter (fun b => b.user_steamid = sid)).length : ℚ) * 100
  else 0

/-- Inclusive integer range `[a, b]`. -/
def intRangeIncl (a b : ℤ) : List ℤ :=
  (List.range (b + 1 - a).toNat).map (fun i : ℕ => a + (i : ℤ))

/-- Pre-kill orientation rows for one kill tick: the player's pitch/yaw
samples present at ticks `max(0, kt-8) .. kt`, in tick order (analyzer.py
lines 388-392; `angles` models the player's rows of the batched pitch/yaw
query, a `none` being a tick with no row). -/
def pre_kill_angles (angles : ℤ → Option (ℚ × ℚ)) (kt : ℤ) : List (ℚ × ℚ) :=
  (intRangeIncl (max 0 (kt - 8)) kt).filterMap angles

/-- Yaw delta wrapped across the 180-degree boundary (analyzer.py lines
399-401). -/
def yawDelta (dy : ℚ) : ℚ := if 180 < dy then 360 - dy else dy

/-- Maximum consecutive-sample angular delta over a pitch/yaw sample list
(analyzer.py lines 396-403), with the Euclidean combination
`sqrt(dp^2 + dy^2)` abstracted as `combine`. -/
def max_consec_delta (combine : ℚ → ℚ → ℚ) (l : List (ℚ × ℚ)) : ℚ :=
  (l.zip l.tail).foldl
    (fun m p => max m (combine |p.2.1 - p.1.1| (yawDelta |p.2.2 - p.1.2|))) 0

/-- Aim-snap scores, one per kill with at least two pre-kill samples
(analyzer.py lines 374-404). -/
def snap_scores_of (kills : List KillRow) (sid : String)
    (angles : ℤ → Option (ℚ × ℚ)) (combine : ℚ → ℚ → ℚ) : List ℚ :=
  ((player_kills kills sid).map (fun k => k.tick)).filterMap (fun kt =>
    if 2 ≤ (pre_kill_angles angles kt).length then
      some (max_consec_delta combine (pre_kill_angles angles kt))
    else none)

/-- The seven signal values feeding the suspicion rules (analyzer.py lines
327-409). -/
structure Signals where
  avg_reaction : Option ℚ
  min_reaction : Option ℚ
  hs_rate : ℚ
  kills : ℕ
  smoke_kill_rate : ℚ
  smoke_kills : ℕ
  accuracy : ℚ
  bullets : ℕ
  max_snap : Option ℚ
  hs_variance : Option ℚ
deriving DecidableEq

/-- Rule: average reaction below 120 ms gives 25 points, else below 180 ms
gives 10 (analyzer.py lines 415-420). -/
def avgReactionPts (s : Signals) : ℕ :=
  match s.avg_reaction with
  | some a => if a < 120 then 25 else if a < 180 then 10 else 0
  | none => 0

/-- Rule: minimum reaction below 70 ms gives 15 points (lines 422-424). -/
def minReactionPts (s : Signals) : ℕ :=
  match s.min_reaction with
  | some m => if m < 70 then 15 else 0
  | none => 0

/-- Rule: headshot rate above 75 with at least 8 kills gives 25 points, else
above 60 gives 5 (lines 426-431). -/
def hsRatePts (s : Signals) : ℕ :=
  if 75 < s.hs_rate ∧ 8 ≤ s.kills then 25
  else if 60 < s.hs_rate ∧ 8 ≤ s.kills then 5
  else 0

/-- Rule: smoke-kill rate above 20 with at least 3 smoke kills gives 20
points (lines 433-435). -/
def smokePts (s : Signals) : ℕ :=
  if 20 < s.smoke_kill_rate ∧ 3 ≤ s.smoke_kills then 20 else 0

/-- Rule: accuracy above 55 with at least 30 bullets gives 20 points, else
above 40 gives 5 (lines 437-442). -/
def accuracyPts (s : Signals) : ℕ :=
  if 55 < s.accuracy ∧ 30 ≤ s.bullets then 20
  else if 40 < s.accuracy ∧ 30 ≤ s.bullets then 5
  else 0

/-- Rule: maximum snap above 60 degrees gives 15 points (lines 444-446). -/
def snapPts (s : Signals) : ℕ :=
  match s.max_snap with
  | some m => if 60 < m then 15 else 0
  | none => 0

/-- Rule: headshot variance below 80 with rate above 55 and at least 8 kills
gives 10 points (lines 448-450). -/
def hsConsistencyPts (s : Signals) : ℕ :=
  match s.hs_variance with
  | some v => if v < 80 ∧ 55 < s.hs_rate ∧ 8 ≤ s.kills then 10 else 0
  | none => 0

/-- Additive suspicion total before clamping (analyzer.py lines 411-450). -/
def suspicionRaw (s : Signals) : ℕ :=
  avgReactionPts s + minReactionPts s + hsRatePts s + smokePts s + accuracyPts s +
    snapPts s + hsConsistencyPts s

/-- `suspicion = min(100, suspicion)` (analyzer.py line 452). -/
def suspicionScore (s : Signals) : ℕ := min 100 (suspicionRaw s)

/-- The signal record computed for one player (analyzer.py lines 292-409). -/
def signals_of (kills : List KillRow) (hurts : List HurtRow) (bullets : List BulletRow)
    (rounds : List RoundR) (sid : String) (tick_rate : ℚ)
    (angles : ℤ → Option (ℚ × ℚ)) (combine : ℚ → ℚ → ℚ) : Signals :=
  { avg_reaction :=
      if reaction_times hurts rounds sid tick_rate = [] then none
      else some (listMean (reaction_times hurts rounds sid tick_rate))
    min_reaction := listMin (reaction_times hurts rounds sid tick_rate)
    hs_rate := hs_rate_of kills sid
    kills := (player_kills kills sid).length
    smoke_kill_rate := smoke_kill_rate_of kills sid
    smoke_kills := (smoke_kills_of kills sid).length
    accuracy := accuracy_of hurts bullets sid
    bullets := (bullets.filter (fun b => b.user_steamid = sid)).length
    max_snap := listMax (snap_scores_of kills sid angles combine)
    hs_variance := hs_variance_raw kills rounds sid }

/-- Python `round(v, 1) if v else None`: `None` and a computed 0.0 both
report as null. -/
def truthyRound1 (x : Option ℚ) : Option ℚ :=
  match x with
  | none => none
  | some v => if v = 0 then none else some (pyRound1 v)

/-- Python `round(v, 0) if v else None` for the millisecond averages. -/
def truthyRound0 (x : Option ℚ) : Option ℚ :=
  match x with
  | none => none
  | some v => if v = 0 then none else some ((pyRound v : ℚ))

/-- The per-player output record of compute_anticheat_metrics (analyzer.py
lines 454-472; the name/steamid echo fields and the flag strings are
omitted). -/
structure ACRecord where
  suspicion_score : ℕ
  reaction_times : List ℚ
  avg_reaction_ms : Option ℚ
  min_reaction_ms : Option ℚ
  ttd_values_ms : List ℚ
  avg_ttd_ms : Option ℚ
  hs_rate : ℚ
  hs_variance : Option ℚ
  accuracy : ℚ
  smoke_kills : ℕ
  smoke_kill_rate : ℚ
  snap_scores : List ℚ
  avg_snap_angle : Option ℚ
  max_snap_angle : Option ℚ
deriving DecidableEq

/-- Per-player body of compute_anticheat_metrics (analyzer.py lines 292-472). -/
def compute_anticheat_record (kills : List KillRow) (hurts : List HurtRow)
    (bullets : List BulletRow) (rounds : List RoundR) (sid : String) (tick_rate : ℚ)
    (angles : ℤ → Option (ℚ × ℚ)) (combine : ℚ → ℚ → ℚ) : ACRecord :=
  { suspicion_score := suspicionScore (signals_of kills hurts bullets rounds sid tick_rate
      angles combine)
    reaction_times := (reaction_times hurts rounds sid tick_rate).take 50
    avg_reaction_ms := truthyRound1 ((signals_of kills hurts bullets rounds sid tick_rate
      angles combine).avg_reaction)
    min_reaction_ms := truthyRound1 ((signals_of kills hurts bullets rounds sid tick_rate
      angles combine).min_reaction)
    ttd_values_ms := (ttd_values hurts rounds sid tick_rate).map (fun t => (pyRound t : ℚ))
    avg_ttd_ms := truthyRound0 (avg_ttd_raw hurts rounds sid tick_rate)
    hs_rate := pyRound1 (hs_rate_of kills sid)
    hs_variance := truthyRound1 (hs_variance_raw kills rounds sid)
    accuracy := pyRound1 (accuracy_of hurts bullets sid)
    smoke_kills := (smoke_kills_of kills sid).length
    smoke_kill_rate := pyRound1 (smoke_kill_rate_of kills sid)
    snap_scores := ((snap_scores_of kills sid angles combine).take 50).map pyRound1
    avg_snap_angle := truthyRound1
      (if snap_scores_of kills sid angles combine = [] then none
       else some (listMean (snap_scores_of kills sid angles combine)))
    max_snap_angle := truthyRound1 (listMax (snap_scores_of kills sid angles combine)) }

/-- The engagement-derived fields added to each player's record
(analyzer.py lines 510-521). -/
structure FovFields where
  fov_sight_to_fire : List ℤ
  fov_avg_sight_to_fire : Option ℤ
  fov_min_sight_to_fire : Option ℤ
  fov_avg_sight_to_damage : Option ℤ
  fov_avg_fire_to_damage : Option ℤ
  engagement_count : ℕ
deriving DecidableEq

/-- Enrichment of a player's record from that player's engagement list
(analyzer.py lines 510-521; every emitted engagement carries a
sight_to_damage_ms, so the source's not-None filter on it is the identity). -/
def enrich_fov (engs : List Engagement) : FovFields :=
  { fov_sight_to_fire := (engs.filterMap (fun e => e.sight_to_fire_ms)).take 50
    fov_avg_sight_to_fire :=
      if engs.filterMap (fun e => e.sight_to_fire_ms) = [] then none
      else some (pyRound (intMean (engs.filterMap (fun e => e.sight_to_fire_ms))))
    fov_min_sight_to_fire :=
      if engs.filterMap (fun e => e.sight_to_fire_ms) = [] then none
      else (intListMin (engs.filterMap (fun e => e.sight_to_fire_ms))).map
        (fun m => pyRound (m : ℚ))
    fov_avg_sight_to_damage :=
      if engs.map (fun e => e.sight_to_damage_ms) = [] then none
      else some (pyRound (intMean (engs.map (fun e => e.sight_to_damage_ms))))
    fov_avg_fire_to_damage :=
      if engs.filterMap (fun e => e.fire_to_damage_ms) = [] then none
      else some (pyRound (intMean (engs.filterMap (fun e => e.fire_to_damage_ms))))
    engagement_count := engs.length }

-- ── C3, C8: suspicion scoring ─────────────────────────────────────────────────

/-- The scenario signal record of the suspicion-scoring claim. -/
def signalsC3 : Signals :=
  { avg_reaction := some 95, min_reaction := some 60, hs_rate := 80, kills := 10,
    smoke_kill_rate := 0, smoke_kills := 0, accuracy := 60, bullets := 40,
    max_snap := some 70, hs_variance := some 50 }

/-- Concrete kill table for the C4 counterexample: two headshot kills in two
different rounds give perfectly consistent per-round headshot fractions. -/
def killsW4 : List KillRow :=
  [{ tick := 100, attacker_steamid := "p", user_steamid := "q",
     headshot := true, thrusmoke := false },
   { tick := 2100, attacker_steamid := "p", user_steamid := "q",
     headshot := true, thrusmoke := false }]

/-- Concrete round table for the C4 counterexample. -/
def roundsW4 : List RoundR :=
  [{ round_num := 1, start_tick := 0, end_tick := 1000 },
   { round_num := 2, start_tick := 2000, end_tick := 3000 }]

/-- Concrete damage table for the C5 counterexample: 17 damaging hits. -/
def hurtsW5 : List HurtRow :=
  List.replicate 17 { tick := 10, attacker_steamid := "p", user_steamid := "q",
                      weapon := "ak47" }

/-- Concrete bullet table for the C5 counterexample: 30 bullets fired. -/
def bulletsW5 : List BulletRow := List.replicate 30 { user_steamid := "p" }

/-- Concrete round table for the C5 counterexample. -/
def roundsW5 : List RoundR := [{ round_num := 1, start_tick := 0, end_tick := 1000 }]

-- ═══ Theorems ══════════════════════════════════════════════════════════════

/-- Batteries' `Rat.floor` agrees with the mathematical floor. -/
theorem ratFloor_eq_intFloor (q : ℚ) : Rat.floor q = ⌊q⌋ := by
  rw [Rat.floor_def', Rat.floor_def]

/-- Banker's rounding differs from its argument by at most 1/2. -/
theorem abs_pyRound_sub_le (q : ℚ) : |(pyRound q : ℚ) - q| ≤ 1/2 := by
  unfold pyRound
  rw [ratFloor_eq_intFloor]
  have h1 : ((⌊q⌋ : ℤ) : ℚ) ≤ q := Int.floor_le q
  have h2 : q < ((⌊q⌋ : ℤ) : ℚ) + 1 := Int.lt_floor_add_one q
  split_ifs with ha hb hc
  · rw [abs_le]
    constructor <;> linarith
  · rw [abs_le]
    constructor <;> push_cast <;> linarith
  · have he : q - ((⌊q⌋ : ℤ) : ℚ) = 1/2 := le_antisymm (not_lt.mp hb) (not_lt.mp ha)
    rw [abs_le]
    constructor <;> linarith
  · have he : q - ((⌊q⌋ : ℤ) : ℚ) = 1/2 := le_antisymm (not_lt.mp hb) (not_lt.mp ha)
    rw [abs_le]
    constructor <;> push_cast <;> linarith

/-- Rounding each part of a sum and rounding the sum agree to within one unit. -/
theorem pyRound_split_le (a b : ℚ) :
    |pyRound a + pyRound b - pyRound (a + b)| ≤ 1 := by
  have ha := abs_pyRound_sub_le a
  have hb := abs_pyRound_sub_le b
  have hc := abs_pyRound_sub_le (a + b)
  have hq : |((pyRound a + pyRound b - pyRound (a + b) : ℤ) : ℚ)| ≤ 3/2 := by
    push_cast
    have : ((pyRound a : ℚ) + (pyRound b : ℚ) - (pyRound (a + b) : ℚ)) =
        ((pyRound a : ℚ) - a) + ((pyRound b : ℚ) - b) - ((pyRound (a + b) : ℚ) - (a + b)) := by
      ring
    rw [this]
    calc |((pyRound a : ℚ) - a) + ((pyRound b : ℚ) - b) - ((pyRound (a + b) : ℚ) - (a + b))|
        ≤ |((pyRound a : ℚ) - a) + ((pyRound b : ℚ) - b)| + |(pyRound (a + b) : ℚ) - (a + b)| :=
          abs_sub _ _
      _ ≤ |(pyRound a : ℚ) - a| + |(pyRound b : ℚ) - b| + |(pyRound (a + b) : ℚ) - (a + b)| := by
          have := abs_add ((pyRound a : ℚ) - a) ((pyRound b : ℚ) - b)
          linarith
      _ ≤ 3/2 := by linarith
  have hq2 : ((|pyRound a + pyRound b - pyRound (a + b)| : ℤ) : ℚ) ≤ 3/2 := by
    rw [Int.cast_abs]; exact hq
  have hq3 : ((|pyRound a + pyRound b - pyRound (a + b)| : ℤ) : ℚ) < 2 := lt_of_le_of_lt hq2 (by norm_num)
  have hq4 : |pyRound a + pyRound b - pyRound (a + b)| < 2 := by exact_mod_cast hq3
  omega

-- ── Lemmas about the backward FOV scan ────────────────────────────────────────

/-- Scanning an even tick whose poses are present, alive and in-cone replaces
the candidate with that tick. -/
theorem fovScanAux_cons_of_incone (angleOf : Pose → Pose → ℚ) (atk vic : ℤ → Option Pose)
    (t : ℤ) (ht : t % 2 = 0) (pa pv : Pose)
    (ha : atk t = some pa) (hv : vic t = some pv)
    (hpa : pa.is_alive = true) (hpv : pv.is_alive = true)
    (hang : angleOf pa pv ≤ FOV_HALF_DEG) (rest : List ℤ) (cand : Option ℤ) :
    fovScanAux angleOf atk vic (t :: rest) cand =
      fovScanAux angleOf atk vic rest (some t) := by
  have hct : t - t % 2 = t := by omega
  simp only [fovScanAux, hct, lookupPose, ha, hv, hpa, hpv, hang, if_true]
  norm_num

/-- Scanning an even tick whose poses are present and alive but out of cone,
with a candidate already set, stops and returns the candidate. -/
theorem fovScanAux_cons_of_outcone (angleOf : Pose → Pose → ℚ) (atk vic : ℤ → Option Pose)
    (t : ℤ) (ht : t % 2 = 0) (pa pv : Pose)
    (ha : atk t = some pa) (hv : vic t = some pv)
    (hpa : pa.is_alive = true) (hpv : pv.is_alive = true)
    (hang : FOV_HALF_DEG < angleOf pa pv) (rest : List ℤ) (s : ℤ) :
    fovScanAux angleOf atk vic (t :: rest) (some s) = some s := by
  have hct : t - t % 2 = t := by omega
  simp only [fovScanAux, hct, lookupPose, ha, hv, hpa, hpv, not_le.mpr hang]
  norm_num

/-- Scanning a contiguous run of even, alive, in-cone ticks ending at `t`
leaves `t` as the candidate. -/
theorem fovScanAux_append_run (angleOf : Pose → Pose → ℚ) (atk vic : ℤ → Option Pose)
    (l : List ℤ) (t : ℤ) (B : List ℤ)
    (hgood : ∀ u ∈ l ++ [t], u % 2 = 0 ∧ ∃ pa pv, atk u = some pa ∧ vic u = some pv ∧
      pa.is_alive = true ∧ pv.is_alive = true ∧ angleOf pa pv ≤ FOV_HALF_DEG) :
    ∀ cand, fovScanAux angleOf atk vic ((l ++ [t]) ++ B) cand =
      fovScanAux angleOf atk vic B (some t) := by
  induction l with
  | nil =>
    intro cand
    obtain ⟨h2, pa, pv, ha, hv, hpa, hpv, hang⟩ := hgood t (by simp)
    simpa using fovScanAux_cons_of_incone angleOf atk vic t h2 pa pv ha hv hpa hpv hang B cand
  | cons u l ih =>
    intro cand
    obtain ⟨h2, pa, pv, ha, hv, hpa, hpv, hang⟩ := hgood u (by simp)
    have hstep := fovScanAux_cons_of_incone angleOf atk vic u h2 pa pv ha hv hpa hpv hang
      ((l ++ [t]) ++ B) cand
    simp only [List.cons_append] at hstep ⊢
    rw [hstep]
    exact ih (fun v hvmem => hgood v (by simp [hvmem])) (some u)

/-- Decomposition of the scanned tick list for a damage tick `T + 50` and a
lookback of at least 49 ticks: the first 25 entries run from `T + 50` down to
`T + 2`, the rest continue from `T` downward. -/
theorem checkTicks_decomp (T lookback : ℤ) (hT : 0 ≤ T) (hlb : 49 ≤ lookback) :
    ∃ m : ℕ, checkTicks (T + 50) lookback =
      (List.range 25).map (fun i : ℕ => T + 50 - 2 * (i : ℤ)) ++
      (List.range m).map (fun i : ℕ => T - 2 * (i : ℤ)) := by
  unfold checkTicks
  set stop := max 0 (T + 50 - lookback) with hstop
  have h0 : 0 ≤ stop := le_max_left _ _
  have h1 : stop ≤ T + 1 := max_le (by omega) (by omega)
  have hn25 : 25 ≤ ((T + 50 - stop).toNat + 1) / 2 := by omega
  refine ⟨((T + 50 - stop).toNat + 1) / 2 - 25, ?_⟩
  have hsplit : ((T + 50 - stop).toNat + 1) / 2 =
      25 + (((T + 50 - stop).toNat + 1) / 2 - 25) := by omega
  rw [hsplit, List.range_add, List.map_append, List.map_map]
  simp only [Nat.add_sub_cancel_left]
  congr 1
  apply List.map_congr_left
  intro i _
  simp only [Function.comp_apply]
  push_cast
  ring

/-- Under alive, pose-complete, stride-aligned conditions with the victim in
the attacker's cone at every sampled tick of `[T+2, T+50]` and out of it at
`T`, the backward scan from damage tick `T + 50` yields sight tick `T + 2`. -/
theorem firstInFovTick_run_start (angleOf : Pose → Pose → ℚ) (atk vic : ℤ → Option Pose)
    (T lookback : ℤ) (hT : 0 ≤ T) (hpar : T % 2 = 0) (hlb : 49 ≤ lookback)
    (halive : ∀ t : ℤ, ∃ pa pv, atk t = some pa ∧ vic t = some pv ∧
      pa.is_alive = true ∧ pv.is_alive = true)
    (hin : ∀ t : ℤ, T + 2 ≤ t → t ≤ T + 50 → ∀ pa pv, atk t = some pa → vic t = some pv →
      angleOf pa pv ≤ FOV_HALF_DEG)
    (hout : ∀ pa pv, atk T = some pa → vic T = some pv → FOV_HALF_DEG < angleOf pa pv) :
    firstInFovTick angleOf atk vic (T + 50) lookback = some (T + 2) := by
  obtain ⟨m, hd⟩ := checkTicks_decomp T lookback hT hlb
  unfold firstInFovTick
  rw [hd]
  have hA : (List.range 25).map (fun i : ℕ => T + 50 - 2 * (i : ℤ)) =
      (List.range 24).map (fun i : ℕ => T + 50 - 2 * (i : ℤ)) ++ [T + 2] := by
    rw [show (25 : ℕ) = 24 + 1 from rfl, List.range_succ, List.map_append]
    norm_num
    omega
  rw [hA]
  have hgood : ∀ u ∈ (List.range 24).map (fun i : ℕ => T + 50 - 2 * (i : ℤ)) ++ [T + 2],
      u % 2 = 0 ∧ ∃ pa pv, atk u = some pa ∧ vic u = some pv ∧
        pa.is_alive = true ∧ pv.is_alive = true ∧ angleOf pa pv ≤ FOV_HALF_DEG := by
    intro u hu
    have hrange : T + 2 ≤ u ∧ u ≤ T + 50 ∧ u % 2 = 0 := by
      rcases List.mem_append.mp hu with h | h
      · obtain ⟨i, hi, rfl⟩ := List.mem_map.mp h
        have hi24 : i < 24 := List.mem_range.mp hi
        omega
      · simp only [List.mem_singleton] at h
        omega
    obtain ⟨pa, pv, ha, hv, hpa, hpv⟩ := halive u
    exact ⟨hrange.2.2, pa, pv, ha, hv, hpa, hpv, hin u hrange.1 hrange.2.1 pa pv ha hv⟩
  rw [fovScanAux_append_run angleOf atk vic _ _ _ hgood none]
  cases m with
  | zero => simp [fovScanAux]
  | succ m2 =>
    rw [List.range_succ_eq_map, List.map_cons]
    obtain ⟨pa, pv, ha, hv, hpa, hpv⟩ := halive T
    simp only [Nat.cast_zero, mul_zero, sub_zero]
    exact fovScanAux_cons_of_outcone angleOf atk vic T hpar pa pv ha hv hpa hpv
      (hout pa pv ha hv) _ _

/-- C1: for a contact scanned with attacker and victim alive and pose data
present throughout, if the attacker's view angle to the victim is outside the
80-degree cone at (stride-aligned) tick T and inside it at every sampled tick
from T+2 up to the damage tick T+50, the emitted engagement has
sight_tick = T+2 (the start of the most recent contiguous in-cone run
immediately preceding damage) and
sight_to_damage_ms = round((50-2)/tick_rate*1000). -/
theorem claim_C1_sight_run_start (tick_rate : ℚ) (angleOf : Pose → Pose → ℚ)
    (atk vic : ℤ → Option Pose) (fire_ticks : List ℤ) (rn : ℤ) (victim : String)
    (T lookback : ℤ) (hT : 0 ≤ T) (hpar : T % 2 = 0) (hlb : 49 ≤ lookback)
    (halive : ∀ t : ℤ, ∃ pa pv, atk t = some pa ∧ vic t = some pv ∧
      pa.is_alive = true ∧ pv.is_alive = true)
    (hin : ∀ t : ℤ, T + 2 ≤ t → t ≤ T + 50 → ∀ pa pv, atk t = some pa → vic t = some pv →
      angleOf pa pv ≤ FOV_HALF_DEG)
    (hout : ∀ pa pv, atk T = some pa → vic T = some pv → FOV_HALF_DEG < angleOf pa pv) :
    ∃ e, mkEngagement tick_rate angleOf atk vic fire_ticks rn victim (T + 50) lookback =
        some e ∧
      e.sight_tick = T + 2 ∧
      e.sight_to_damage_ms = pyRound (((50 : ℚ) - 2) / tick_rate * 1000) := by
  have hscan := firstInFovTick_run_start angleOf atk vic T lookback hT hpar hlb halive hin hout
  have hlt : ¬ (T + 50 ≤ T + 2) := by omega
  have hcast : ((T + 50 - (T + 2) : ℤ) : ℚ) = (50 : ℚ) - 2 := by push_cast; ring
  cases hfind : fire_ticks.find? (fun ft => decide (T + 2 ≤ ft ∧ ft ≤ T + 50)) with
  | none =>
    refine ⟨{ round_num := rn, victim := victim, damage_tick := T + 50, sight_tick := T + 2,
              sight_to_damage_ms := pyRound (((T + 50 - (T + 2) : ℤ) : ℚ) / tick_rate * 1000),
              sight_to_fire_ms := none, fire_to_damage_ms := none }, ?_, rfl, ?_⟩
    · unfold mkEngagement
      simp only [hscan, if_neg hlt, hfind]
    · simp only
      rw [hcast]
  | some ft =>
    refine ⟨{ round_num := rn, victim := victim, damage_tick := T + 50, sight_tick := T + 2,
              sight_to_damage_ms := pyRound (((T + 50 - (T + 2) : ℤ) : ℚ) / tick_rate * 1000),
              sight_to_fire_ms := some (pyRound (((ft - (T + 2) : ℤ) : ℚ) / tick_rate * 1000)),
              fire_to_damage_ms := some (pyRound (((T + 50 - ft : ℤ) : ℚ) / tick_rate * 1000)) },
      ?_, rfl, ?_⟩
    · unfold mkEngagement
      simp only [hscan, if_neg hlt, hfind]
    · simp only
      rw [hcast]

/-- Witness for C1 at T = 1000, tick rate 64, lookback 192. -/
theorem claim_C1_sight_run_start_witness :
    ∃ e, mkEngagement 64 (fun a _ => a.pitch)
        (fun t => some { x := 0, y := 0, z := 0,
                         pitch := if 1002 ≤ t then 10 else 90, yaw := 0, is_alive := true })
        (fun _ => some { x := 1, y := 0, z := 0, pitch := 0, yaw := 0, is_alive := true })
        [] 1 "v" (1000 + 50) 192 = some e ∧
      e.sight_tick = 1000 + 2 ∧
      e.sight_to_damage_ms = pyRound (((50 : ℚ) - 2) / 64 * 1000) :=
  claim_C1_sight_run_start 64 (fun a _ => a.pitch)
    (fun t => some { x := 0, y := 0, z := 0,
                     pitch := if 1002 ≤ t then 10 else 90, yaw := 0, is_alive := true })
    (fun _ => some { x := 1, y := 0, z := 0, pitch := 0, yaw := 0, is_alive := true })
    [] 1 "v" 1000 192 (by decide) (by decide) (by decide)
    (fun t => ⟨_, _, rfl, rfl, rfl, rfl⟩)
    (fun t h1 h2 pa pv ha hv => by
      injection ha with ha
      subst ha
      show (if 1002 ≤ t then (10 : ℚ) else 90) ≤ FOV_HALF_DEG
      rw [if_pos (by omega : (1002 : ℤ) ≤ t)]
      norm_num [FOV_HALF_DEG])
    (fun pa pv ha hv => by
      injection ha with ha
      subst ha
      show FOV_HALF_DEG < (if (1002 : ℤ) ≤ 1000 then (10 : ℚ) else 90)
      rw [if_neg (by omega : ¬ (1002 : ℤ) ≤ 1000)]
      norm_num [FOV_HALF_DEG])

-- ── Inversion lemmas for emitted engagements ──────────────────────────────────

/-- Every emitted (attacker, engagement) pair comes from a contact whose
per-contact construction succeeded. -/
theorem compute_engagements_mem (tick_rate : ℚ) (angleOf : Pose → Pose → ℚ)
    (player_ticks : String → ℤ → Option Pose) (hurts : List HurtRow) (fires : List FireRow)
    (rounds : List RoundR) (sid : String) (e : Engagement)
    (h : (sid, e) ∈ compute_engagements tick_rate angleOf player_ticks hurts fires rounds) :
    ∃ c ∈ extract_contacts hurts rounds, c.attacker = sid ∧
      mkEngagement tick_rate angleOf (player_ticks c.attacker) (player_ticks c.victim)
        (fire_ticks_for fires c.attacker) c.round_num c.victim c.damage_tick
        (pyInt (LOOKBACK_TICKS * tick_rate / 64)) = some e := by
  unfold compute_engagements at h
  obtain ⟨c, hc, hmk⟩ := List.mem_filterMap.mp h
  obtain ⟨e2, hmk2, hpair⟩ := Option.map_eq_some'.mp hmk
  have h1 : c.attacker = sid := congrArg Prod.fst hpair
  have h2 : e2 = e := congrArg Prod.snd hpair
  subst h2
  exact ⟨c, hc, h1, hmk2⟩

/-- Inversion of the per-contact construction: an emitted engagement records
the scan result as sight tick, which is strictly before the damage tick, and
its millisecond fields are the banker-rounded tick deltas. -/
theorem mkEngagement_inv (tick_rate : ℚ) (angleOf : Pose → Pose → ℚ)
    (atk vic : ℤ → Option Pose) (fire_ticks : List ℤ)
    (rn : ℤ) (victim : String) (dmg lookback : ℤ) (e : Engagement)
    (h : mkEngagement tick_rate angleOf atk vic fire_ticks rn victim dmg lookback = some e) :
    ∃ s, firstInFovTick angleOf atk vic dmg lookback = some s ∧ s < dmg ∧
      e.round_num = rn ∧ e.victim = victim ∧ e.damage_tick = dmg ∧ e.sight_tick = s ∧
      e.sight_to_damage_ms = pyRound (((dmg - s : ℤ) : ℚ) / tick_rate * 1000) ∧
      ((∃ ft, fire_ticks.find? (fun ft => decide (s ≤ ft ∧ ft ≤ dmg)) = some ft ∧
          e.sight_to_fire_ms = some (pyRound (((ft - s : ℤ) : ℚ) / tick_rate * 1000)) ∧
          e.fire_to_damage_ms = some (pyRound (((dmg - ft : ℤ) : ℚ) / tick_rate * 1000))) ∨
        (fire_ticks.find? (fun ft => decide (s ≤ ft ∧ ft ≤ dmg)) = none ∧
          e.sight_to_fire_ms = none ∧ e.fire_to_damage_ms = none)) := by
  unfold mkEngagement at h
  cases hscan : firstInFovTick angleOf atk vic dmg lookback with
  | none =>
    simp only [hscan] at h
    exact Option.noConfusion h
  | some s =>
    simp only [hscan] at h
    by_cases hged : dmg ≤ s
    · rw [if_pos hged] at h
      simp at h
    · rw [if_neg hged] at h
      cases hfind : fire_ticks.find? (fun ft => decide (s ≤ ft ∧ ft ≤ dmg)) with
      | some ft =>
        rw [hfind] at h
        injection h with h
        subst h
        exact ⟨s, rfl, by omega, rfl, rfl, rfl, rfl, rfl, Or.inl ⟨ft, hfind, rfl, rfl⟩⟩
      | none =>
        rw [hfind] at h
        injection h with h
        subst h
        exact ⟨s, rfl, by omega, rfl, rfl, rfl, rfl, rfl, Or.inr ⟨hfind, rfl, rfl⟩⟩

/-- C2: every engagement emitted by compute_engagements has sight_tick
strictly below damage_tick, and whenever sight_to_fire_ms is present,
fire_to_damage_ms is present as well and their sum equals sight_to_damage_ms
up to 1 ms of rounding error. -/
theorem claim_C2_engagement_invariants (tick_rate : ℚ) (angleOf : Pose → Pose → ℚ)
    (player_ticks : String → ℤ → Option Pose) (hurts : List HurtRow) (fires : List FireRow)
    (rounds : List RoundR) (sid : String) (e : Engagement)
    (h : (sid, e) ∈ compute_engagements tick_rate angleOf player_ticks hurts fires rounds) :
    e.sight_tick < e.damage_tick ∧
    ∀ x, e.sight_to_fire_ms = some x →
      ∃ y, e.fire_to_damage_ms = some y ∧ |x + y - e.sight_to_damage_ms| ≤ 1 := by
  obtain ⟨c, hc, hsid, hmk⟩ := compute_engagements_mem tick_rate angleOf player_ticks
    hurts fires rounds sid e h
  obtain ⟨s, hscan, hlt, hrn, hvic, hdmg, hsight, hstd, hfire⟩ :=
    mkEngagement_inv _ _ _ _ _ _ _ _ _ _ hmk
  constructor
  · rw [hsight, hdmg]
    exact hlt
  · intro x hx
    rcases hfire with ⟨ft, hfind, hstf, hftd⟩ | ⟨hfind, hstf, hftd⟩
    · rw [hstf] at hx
      injection hx with hx
      refine ⟨_, hftd, ?_⟩
      rw [← hx, hstd]
      have key : (((c.damage_tick - s : ℤ) : ℚ) / tick_rate * 1000) =
          (((ft - s : ℤ) : ℚ) / tick_rate * 1000) +
          (((c.damage_tick - ft : ℤ) : ℚ) / tick_rate * 1000) := by
        push_cast
        ring
      rw [key]
      exact pyRound_split_le _ _
    · rw [hstf] at hx
      cases hx

set_option maxRecDepth 4000 in
unseal Rat.add Rat.mul Rat.sub Rat.inv in
theorem claim_C2_engagement_invariants_witness :
    ({ round_num := 1, victim := "v", damage_tick := 50, sight_tick := 2,
       sight_to_damage_ms := 750, sight_to_fire_ms := some 594,
       fire_to_damage_ms := some 156 } : Engagement).sight_tick <
      ({ round_num := 1, victim := "v", damage_tick := 50, sight_tick := 2,
         sight_to_damage_ms := 750, sight_to_fire_ms := some 594,
         fire_to_damage_ms := some 156 } : Engagement).damage_tick ∧
    ∀ x, ({ round_num := 1, victim := "v", damage_tick := 50, sight_tick := 2,
            sight_to_damage_ms := 750, sight_to_fire_ms := some 594,
            fire_to_damage_ms := some 156 } : Engagement).sight_to_fire_ms = some x →
      ∃ y, ({ round_num := 1, victim := "v", damage_tick := 50, sight_tick := 2,
              sight_to_damage_ms := 750, sight_to_fire_ms := some 594,
              fire_to_damage_ms := some 156 } : Engagement).fire_to_damage_ms = some y ∧
        |x + y - ({ round_num := 1, victim := "v", damage_tick := 50, sight_tick := 2,
                    sight_to_damage_ms := 750, sight_to_fire_ms := some 594,
                    fire_to_damage_ms := some 156 } : Engagement).sight_to_damage_ms| ≤ 1 :=
  claim_C2_engagement_invariants 64 (fun _ _ => 10)
    (fun _ _ => some { x := 0, y := 0, z := 0, pitch := 0, yaw := 0, is_alive := true })
    [{ tick := 50, attacker_steamid := "a", user_steamid := "v", weapon := "ak47" }]
    [{ tick := 40, user_steamid := "a", weapon := "ak47" }]
    [{ round_num := 1, start_tick := 0, end_tick := 100 }]
    "a"
    { round_num := 1, victim := "v", damage_tick := 50, sight_tick := 2,
      sight_to_damage_ms := 750, sight_to_fire_ms := some 594, fire_to_damage_ms := some 156 }
    (by decide)

/-- Membership in the per-attacker fire-tick list is exactly a non-excluded
weapon-fire row of that attacker. -/
theorem mem_fire_ticks_for (fires : List FireRow) (sid : String) (t : ℤ) :
    t ∈ fire_ticks_for fires sid ↔
      ∃ f ∈ fires, f.user_steamid = sid ∧ f.user_steamid ≠ "" ∧
        fireWeaponExcluded f.weapon = false ∧ f.tick = t := by
  unfold fire_ticks_for
  rw [List.mem_insertionSort, List.mem_map]
  constructor
  · rintro ⟨f, hf, rfl⟩
    rw [List.mem_filter] at hf
    obtain ⟨hmem, hcond⟩ := hf
    rw [decide_eq_true_eq] at hcond
    exact ⟨f, hmem, hcond.1, hcond.2.1, hcond.2.2, rfl⟩
  · rintro ⟨f, hmem, h1, h2, h3, rfl⟩
    exact ⟨f, List.mem_filter.mpr ⟨hmem, by rw [decide_eq_true_eq]; exact ⟨h1, h2, h3⟩⟩, rfl⟩

/-- The per-attacker fire-tick list is sorted ascending. -/
theorem fire_ticks_for_sorted (fires : List FireRow) (sid : String) :
    List.Sorted (fun a b : ℤ => a ≤ b) (fire_ticks_for fires sid) :=
  List.sorted_insertionSort _ _

/-- On a sorted integer list, `find?` returns a minimal element among those
satisfying the predicate. -/
theorem find?_sorted_min {p : ℤ → Bool} {l : List ℤ}
    (hs : List.Sorted (fun a b : ℤ => a ≤ b) l)
    {a : ℤ} (hf : l.find? p = some a) : ∀ b ∈ l, p b = true → a ≤ b := by
  induction l with
  | nil => cases hf
  | cons x xs ih =>
    rw [List.sorted_cons] at hs
    by_cases hpx : p x = true
    · rw [List.find?_cons_of_pos _ hpx] at hf
      injection hf with hf
      subst hf
      intro b hb hpb
      rcases List.mem_cons.mp hb with rfl | hb2
      · exact le_refl _
      · exact hs.1 b hb2
    · rw [List.find?_cons_of_neg _ (by simpa using hpx)] at hf
      intro b hb hpb
      rcases List.mem_cons.mp hb with rfl | hb2
      · exact absurd hpb hpx
      · exact ih hs.2 hf b hb2 hpb

/-- C6: for every emitted engagement, sight_to_fire_ms and fire_to_damage_ms
are present exactly when the attacker has a non-melee, non-utility weapon-fire
event at a tick in [sight_tick, damage_tick]; when present they are derived
from the earliest such fire event, and absent otherwise. -/
theorem claim_C6_fire_correlation (tick_rate : ℚ) (angleOf : Pose → Pose → ℚ)
    (player_ticks : String → ℤ → Option Pose) (hurts : List HurtRow) (fires : List FireRow)
    (rounds : List RoundR) (sid : String) (e : Engagement)
    (h : (sid, e) ∈ compute_engagements tick_rate angleOf player_ticks hurts fires rounds) :
    (e.sight_to_fire_ms.isSome = true ↔
      ∃ f ∈ fires, f.user_steamid = sid ∧ f.user_steamid ≠ "" ∧
        fireWeaponExcluded f.weapon = false ∧
        e.sight_tick ≤ f.tick ∧ f.tick ≤ e.damage_tick) ∧
    (e.sight_to_fire_ms.isSome = true ↔ e.fire_to_damage_ms.isSome = true) ∧
    (e.sight_to_fire_ms.isSome = true →
      ∃ ft, (∃ f ∈ fires, f.user_steamid = sid ∧ f.user_steamid ≠ "" ∧
          fireWeaponExcluded f.weapon = false ∧ f.tick = ft) ∧
        e.sight_tick ≤ ft ∧ ft ≤ e.damage_tick ∧
        (∀ g ∈ fires, g.user_steamid = sid → g.user_steamid ≠ "" →
          fireWeaponExcluded g.weapon = false →
          e.sight_tick ≤ g.tick → g.tick ≤ e.damage_tick → ft ≤ g.tick) ∧
        e.sight_to_fire_ms = some (pyRound (((ft - e.sight_tick : ℤ) : ℚ) / tick_rate * 1000)) ∧
        e.fire_to_damage_ms =
          some (pyRound (((e.damage_tick - ft : ℤ) : ℚ) / tick_rate * 1000))) := by
  obtain ⟨c, hc, hsid, hmk⟩ := compute_engagements_mem tick_rate angleOf player_ticks
    hurts fires rounds sid e h
  subst hsid
  obtain ⟨s, hscan, hlt, hrn, hvic, hdmg, hsight, hstd, hfire⟩ :=
    mkEngagement_inv _ _ _ _ _ _ _ _ _ _ hmk
  rw [hsight, hdmg]
  have hiff1 : e.sight_to_fire_ms.isSome = true ↔
      ((fire_ticks_for fires c.attacker).find?
        (fun ft => decide (s ≤ ft ∧ ft ≤ c.damage_tick))).isSome = true := by
    rcases hfire with ⟨ft, hfind, hstf, hftd⟩ | ⟨hfind, hstf, hftd⟩
    · simp only [hstf, hfind, Option.isSome_some]
    · simp only [hstf, hfind]
  have hiff2 : ((fire_ticks_for fires c.attacker).find?
      (fun ft => decide (s ≤ ft ∧ ft ≤ c.damage_tick))).isSome = true ↔
      ∃ f ∈ fires, f.user_steamid = c.attacker ∧ f.user_steamid ≠ "" ∧
        fireWeaponExcluded f.weapon = false ∧ s ≤ f.tick ∧ f.tick ≤ c.damage_tick := by
    rw [List.find?_isSome]
    constructor
    · rintro ⟨x, hx, hpx⟩
      rw [decide_eq_true_eq] at hpx
      obtain ⟨f, hmem, h1, h2, h3, rfl⟩ := (mem_fire_ticks_for fires c.attacker x).mp hx
      exact ⟨f, hmem, h1, h2, h3, hpx.1, hpx.2⟩
    · rintro ⟨f, hmem, h1, h2, h3, h4, h5⟩
      exact ⟨f.tick, (mem_fire_ticks_for fires c.attacker f.tick).mpr ⟨f, hmem, h1, h2, h3, rfl⟩,
        by rw [decide_eq_true_eq]; exact ⟨h4, h5⟩⟩
  refine ⟨hiff1.trans hiff2, ?_, ?_⟩
  · rcases hfire with ⟨ft, hfind, hstf, hftd⟩ | ⟨hfind, hstf, hftd⟩
    · simp only [hstf, hftd, Option.isSome_some]
    · simp only [hstf, hftd]
  · intro hsome
    rcases hfire with ⟨ft, hfind, hstf, hftd⟩ | ⟨hfind, hstf, hftd⟩
    · have hmemL := List.mem_of_find?_eq_some hfind
      have hpft := List.find?_some hfind
      rw [decide_eq_true_eq] at hpft
      obtain ⟨f, hmem, h1, h2, h3, hft⟩ :=
        (mem_fire_ticks_for fires c.attacker ft).mp hmemL
      refine ⟨ft, ⟨f, hmem, h1, h2, h3, hft⟩, hpft.1, hpft.2, ?_, ?_, ?_⟩
      · intro g hg hg1 hg2 hg3 hg4 hg5
        exact find?_sorted_min (fire_ticks_for_sorted fires c.attacker) hfind g.tick
          ((mem_fire_ticks_for fires c.attacker g.tick).mpr ⟨g, hg, hg1, hg2, hg3, rfl⟩)
          (by rw [decide_eq_true_eq]; exact ⟨hg4, hg5⟩)
      · exact hstf
      · exact hftd
    · rw [hstf] at hsome
      cases hsome

set_option maxRecDepth 4000 in
unseal Rat.add Rat.mul Rat.sub Rat.inv in
theorem claim_C6_fire_correlation_witness :
    (engW6.sight_to_fire_ms.isSome = true ↔
      ∃ f ∈ firesW6, f.user_steamid = "a" ∧ f.user_steamid ≠ "" ∧
        fireWeaponExcluded f.weapon = false ∧
        engW6.sight_tick ≤ f.tick ∧ f.tick ≤ engW6.damage_tick) ∧
    (engW6.sight_to_fire_ms.isSome = true ↔ engW6.fire_to_damage_ms.isSome = true) ∧
    (engW6.sight_to_fire_ms.isSome = true →
      ∃ ft, (∃ f ∈ firesW6, f.user_steamid = "a" ∧ f.user_steamid ≠ "" ∧
          fireWeaponExcluded f.weapon = false ∧ f.tick = ft) ∧
        engW6.sight_tick ≤ ft ∧ ft ≤ engW6.damage_tick ∧
        (∀ g ∈ firesW6, g.user_steamid = "a" → g.user_steamid ≠ "" →
          fireWeaponExcluded g.weapon = false →
          engW6.sight_tick ≤ g.tick → g.tick ≤ engW6.damage_tick → ft ≤ g.tick) ∧
        engW6.sight_to_fire_ms =
          some (pyRound (((ft - engW6.sight_tick : ℤ) : ℚ) / 64 * 1000)) ∧
        engW6.fire_to_damage_ms =
          some (pyRound (((engW6.damage_tick - ft : ℤ) : ℚ) / 64 * 1000))) :=
  claim_C6_fire_correlation 64 (fun _ _ => 10)
    (fun _ _ => some { x := 0, y := 0, z := 0, pitch := 0, yaw := 0, is_alive := true })
    [{ tick := 50, attacker_steamid := "a", user_steamid := "v", weapon := "ak47" }]
    firesW6
    [{ round_num := 1, start_tick := 0, end_tick := 100 }]
    "a" engW6 (by decide)

-- ── C7: round building ────────────────────────────────────────────────────────

/-- C7 (amended): every round built by build_rounds has start_tick < end_tick,
with end_tick the smallest round-ended tick strictly greater than start_tick
(or start_tick + 20000 when none exists), and the rounds are sorted by
start_tick; overlap between consecutive rounds is possible and is not ruled
out (see the counterexample). -/
theorem claim_C7_round_invariants (freeze_ticks ended_ticks : List ℤ) :
    (∀ r ∈ build_rounds freeze_ticks ended_ticks,
      r.start_tick < r.end_tick ∧
      ((∃ et ∈ ended_ticks, r.start_tick < et ∧ r.end_tick = et ∧
          ∀ et2 ∈ ended_ticks, r.start_tick < et2 → et ≤ et2) ∨
        ((∀ et ∈ ended_ticks, ¬ r.start_tick < et) ∧
          r.end_tick = r.start_tick + 20000))) ∧
    List.Sorted (fun a b : ℤ => a ≤ b)
      ((build_rounds freeze_ticks ended_ticks).map (fun r => r.start_tick)) := by
  constructor
  · intro r hr
    unfold build_rounds at hr
    obtain ⟨p, hp, hr⟩ := List.mem_map.mp hr
    subst hr
    have hmem_es : ∀ x : ℤ,
        x ∈ (ended_ticks.dedup).insertionSort (fun a b : ℤ => a ≤ b) ↔ x ∈ ended_ticks := by
      intro x
      rw [List.mem_insertionSort, List.mem_dedup]
    have hsorted_es : List.Sorted (fun a b : ℤ => a ≤ b)
        ((ended_ticks.dedup).insertionSort (fun a b : ℤ => a ≤ b)) :=
      List.sorted_insertionSort _ _
    cases hfind : ((ended_ticks.dedup).insertionSort (fun a b : ℤ => a ≤ b)).find?
        (fun et => decide (p.2 < et)) with
    | some et =>
      have hp_et := List.find?_some hfind
      rw [decide_eq_true_eq] at hp_et
      constructor
      · simp only [hfind]
        exact hp_et
      · left
        refine ⟨et, (hmem_es et).mp (List.mem_of_find?_eq_some hfind), hp_et, ?_, ?_⟩
        · simp only [hfind]
        · intro et2 h2 hlt2
          exact find?_sorted_min hsorted_es hfind et2 ((hmem_es et2).mpr h2)
            (by rw [decide_eq_true_eq]; exact hlt2)
    | none =>
      have hnone := List.find?_eq_none.mp hfind
      constructor
      · simp only [hfind]
        omega
      · right
        refine ⟨?_, by simp only [hfind]⟩
        intro et h1 hlt1
        have := hnone et ((hmem_es et).mpr h1)
        rw [decide_eq_true_eq] at this
        exact this hlt1
  · have hmap : (build_rounds freeze_ticks ended_ticks).map (fun r => r.start_tick) =
        freeze_ticks.insertionSort (fun a b : ℤ => a ≤ b) := by
      unfold build_rounds
      rw [List.map_map]
      have : ((fun r : RoundR => r.start_tick) ∘ (fun p : ℕ × ℤ =>
          ({ round_num := (p.1 : ℤ) + 1, start_tick := p.2,
             end_tick :=
               match ((ended_ticks.dedup).insertionSort (fun a b => a ≤ b)).find?
                   (fun et => decide (p.2 < et)) with
               | some et => et
               | none => p.2 + 20000 } : RoundR))) = (fun p : ℕ × ℤ => p.2) := rfl
      rw [this]
      exact List.enum_map_snd _
    rw [hmap]
    exact List.sorted_insertionSort _ _

/-- Counterexample to the non-overlap part of the round-invariants claim: two
round starts (100 and 200) that share the same nearest-following end tick 300
produce rounds [100, 300] and [200, 300], which both contain tick 250. -/
theorem claim_C7_counterexample :
    (build_rounds [100, 200] [300]).map (fun r => (r.start_tick, r.end_tick)) =
      [((100 : ℤ), (300 : ℤ)), (200, 300)] ∧
    ((100 : ℤ) ≤ 250 ∧ (250 : ℤ) ≤ 300) ∧ ((200 : ℤ) ≤ 250 ∧ (250 : ℤ) ≤ 300) := by
  decide

-- ── C9: tickrate detection ────────────────────────────────────────────────────

/-- C9: detect_tickrate returns only 64 or 128, and returns 128 exactly when
the header's playback_ticks and playback_time are both positive (missing
fields default to 0) and round(playback_ticks / playback_time) is at least
100. -/
theorem claim_C9_detect_tickrate (h : DemoHeader) :
    (detect_tickrate h = 64 ∨ detect_tickrate h = 128) ∧
    (detect_tickrate h = 128 ↔
      0 < h.playback_ticks.getD 0 ∧ 0 < h.playback_time.getD 0 ∧
        100 ≤ pyRound (h.playback_ticks.getD 0 / h.playback_time.getD 0)) := by
  unfold detect_tickrate
  by_cases hc : 0 < h.playback_ticks.getD 0 ∧ 0 < h.playback_time.getD 0 ∧
      100 ≤ pyRound (h.playback_ticks.getD 0 / h.playback_time.getD 0)
  · rw [if_pos hc]
    exact ⟨Or.inr rfl, iff_of_true rfl hc⟩
  · rw [if_neg hc]
    exact ⟨Or.inl rfl, iff_of_false (by norm_num) hc⟩

/-- C3: the suspicion score is the clamp to [0,100] of the sum of the
independently evaluated per-rule point values, and on the scenario signals
(avg reaction 95ms, min 60ms, HS rate 80 over 10 kills, accuracy 60 over 40
bullets, max snap 70 degrees, HS variance 50) the additive total is
25+15+25+20+15+10 = 110 and the reported score is 100. -/
theorem claim_C3_suspicion_additive :
    (∀ (kills : List KillRow) (hurts : List HurtRow) (bullets : List BulletRow)
      (rounds : List RoundR) (sid : String) (tick_rate : ℚ)
      (angles : ℤ → Option (ℚ × ℚ)) (combine : ℚ → ℚ → ℚ),
      (compute_anticheat_record kills hurts bullets rounds sid tick_rate angles
          combine).suspicion_score =
        min 100
          (avgReactionPts (signals_of kills hurts bullets rounds sid tick_rate angles combine) +
           minReactionPts (signals_of kills hurts bullets rounds sid tick_rate angles combine) +
           hsRatePts (signals_of kills hurts bullets rounds sid tick_rate angles combine) +
           smokePts (signals_of kills hurts bullets rounds sid tick_rate angles combine) +
           accuracyPts (signals_of kills hurts bullets rounds sid tick_rate angles combine) +
           snapPts (signals_of kills hurts bullets rounds sid tick_rate angles combine) +
           hsConsistencyPts (signals_of kills hurts bullets rounds sid tick_rate angles
             combine))) ∧
    suspicionRaw signalsC3 = 110 ∧ suspicionScore signalsC3 = 100 := by
  refine ⟨fun kills hurts bullets rounds sid tick_rate angles combine => rfl, ?_, ?_⟩
  · decide
  · decide

/-- C8: with every other signal fixed, lowering avg_reaction_ms from 200 to
100 never decreases the suspicion score. -/
theorem claim_C8_reaction_monotonicity (s : Signals) :
    suspicionScore { s with avg_reaction := some 200 } ≤
      suspicionScore { s with avg_reaction := some 100 } := by
  have h200 : avgReactionPts { s with avg_reaction := some 200 } = 0 := by
    show (if (200 : ℚ) < 120 then 25 else if (200 : ℚ) < 180 then 10 else 0) = 0
    norm_num
  have h100 : avgReactionPts { s with avg_reaction := some 100 } = 25 := by
    show (if (100 : ℚ) < 120 then 25 else if (100 : ℚ) < 180 then 10 else 0) = 25
    norm_num
  unfold suspicionScore suspicionRaw
  rw [h200, h100]
  rw [show minReactionPts { s with avg_reaction := some 200 } =
    minReactionPts { s with avg_reaction := some 100 } from rfl]
  rw [show hsRatePts { s with avg_reaction := some 200 } =
    hsRatePts { s with avg_reaction := some 100 } from rfl]
  rw [show smokePts { s with avg_reaction := some 200 } =
    smokePts { s with avg_reaction := some 100 } from rfl]
  rw [show accuracyPts { s with avg_reaction := some 200 } =
    accuracyPts { s with avg_reaction := some 100 } from rfl]
  rw [show snapPts { s with avg_reaction := some 200 } =
    snapPts { s with avg_reaction := some 100 } from rfl]
  rw [show hsConsistencyPts { s with avg_reaction := some 200 } =
    hsConsistencyPts { s with avg_reaction := some 100 } from rfl]
  omega

-- ── C4: zero versus null reporting ────────────────────────────────────────────

/-- Truthiness-based reporting maps both a missing signal and a computed zero
to null. -/
theorem truthyRound1_eq_none_iff (x : Option ℚ) :
    truthyRound1 x = none ↔ x = none ∨ x = some 0 := by
  cases x with
  | none => simp [truthyRound1]
  | some v =>
    by_cases h : v = 0
    · subst h
      simp [truthyRound1]
    · simp [truthyRound1, h]

/-- Truthiness-based reporting of the millisecond averages maps both a
missing signal and a computed zero to null. -/
theorem truthyRound0_eq_none_iff (x : Option ℚ) :
    truthyRound0 x = none ↔ x = none ∨ x = some 0 := by
  cases x with
  | none => simp [truthyRound0]
  | some v =>
    by_cases h : v = 0
    · subst h
      simp [truthyRound0]
    · simp [truthyRound0, h]

/-- C4 (amended): in the per-player output, hs_variance and avg_ttd_ms are
reported as null exactly when the raw signal is either missing or was
computed as zero — a computed zero is reported as null, indistinguishable
from insufficient data. -/
theorem claim_C4_zero_conflated_with_null (kills : List KillRow) (hurts : List HurtRow)
    (bullets : List BulletRow) (rounds : List RoundR) (sid : String) (tick_rate : ℚ)
    (angles : ℤ → Option (ℚ × ℚ)) (combine : ℚ → ℚ → ℚ) :
    ((compute_anticheat_record kills hurts bullets rounds sid tick_rate angles
        combine).hs_variance = none ↔
      hs_variance_raw kills rounds sid = none ∨ hs_variance_raw kills rounds sid = some 0) ∧
    ((compute_anticheat_record kills hurts bullets rounds sid tick_rate angles
        combine).avg_ttd_ms = none ↔
      avg_ttd_raw hurts rounds sid tick_rate = none ∨
        avg_ttd_raw hurts rounds sid tick_rate = some 0) :=
  ⟨truthyRound1_eq_none_iff _, truthyRound0_eq_none_iff _⟩

set_option maxRecDepth 8000 in
unseal Rat.add Rat.mul Rat.sub Rat.inv in
theorem claim_C4_counterexample :
    hs_variance_raw killsW4 roundsW4 "p" = some 0 ∧
    (compute_anticheat_record killsW4 [] [] roundsW4 "p" 64 (fun _ => none)
      (fun _ _ => 0)).hs_variance = none := by
  decide

-- ── C5: zero-kill players ─────────────────────────────────────────────────────

unseal Rat.add Rat.mul Rat.sub Rat.inv in
theorem pyRound1_zero : pyRound1 0 = 0 := by decide

/-- C5 (amended): a player with zero recorded kills gets hs_rate = 0, empty
snap_scores, zero smoke kills and rate, and zero suspicion points from the
headshot, smoke, snap, and headshot-consistency rules; the accuracy and
reaction-time signals are computed from damage and bullet events, not kills,
and can be nonzero for such a player (see the counterexample). -/
theorem claim_C5_zero_kills (kills : List KillRow) (hurts : List HurtRow)
    (bullets : List BulletRow) (rounds : List RoundR) (sid : String) (tick_rate : ℚ)
    (angles : ℤ → Option (ℚ × ℚ)) (combine : ℚ → ℚ → ℚ)
    (h : player_kills kills sid = []) :
    (compute_anticheat_record kills hurts bullets rounds sid tick_rate angles
      combine).hs_rate = 0 ∧
    (compute_anticheat_record kills hurts bullets rounds sid tick_rate angles
      combine).snap_scores = [] ∧
    (compute_anticheat_record kills hurts bullets rounds sid tick_rate angles
      combine).smoke_kills = 0 ∧
    (compute_anticheat_record kills hurts bullets rounds sid tick_rate angles
      combine).smoke_kill_rate = 0 ∧
    hsRatePts (signals_of kills hurts bullets rounds sid tick_rate angles combine) = 0 ∧
    smokePts (signals_of kills hurts bullets rounds sid tick_rate angles combine) = 0 ∧
    snapPts (signals_of kills hurts bullets rounds sid tick_rate angles combine) = 0 ∧
    hsConsistencyPts (signals_of kills hurts bullets rounds sid tick_rate angles
      combine) = 0 := by
  refine ⟨?_, ?_, ?_, ?_, ?_, ?_, ?_, ?_⟩
  · show pyRound1 (hs_rate_of kills sid) = 0
    rw [hs_rate_of, h]
    simp [pyRound1_zero]
  · show ((snap_scores_of kills sid angles combine).take 50).map pyRound1 = []
    rw [snap_scores_of, h]
    rfl
  · show (smoke_kills_of kills sid).length = 0
    rw [smoke_kills_of, h]
    rfl
  · show pyRound1 (smoke_kill_rate_of kills sid) = 0
    rw [smoke_kill_rate_of, h]
    simp [pyRound1_zero]
  · show hsRatePts (signals_of kills hurts bullets rounds sid tick_rate angles combine) = 0
    have hk : (signals_of kills hurts bullets rounds sid tick_rate angles
        combine).kills = 0 := by
      show (player_kills kills sid).length = 0
      rw [h]
      rfl
    unfold hsRatePts
    rw [hk]
    norm_num
  · show smokePts (signals_of kills hurts bullets rounds sid tick_rate angles combine) = 0
    have hk : (signals_of kills hurts bullets rounds sid tick_rate angles
        combine).smoke_kills = 0 := by
      show ((player_kills kills sid).filter (fun k => k.thrusmoke = true)).length = 0
      rw [h]
      rfl
    unfold smokePts
    rw [hk]
    norm_num
  · show snapPts (signals_of kills hurts bullets rounds sid tick_rate angles combine) = 0
    have hk : (signals_of kills hurts bullets rounds sid tick_rate angles
        combine).max_snap = none := by
      show listMax (snap_scores_of kills sid angles combine) = none
      rw [snap_scores_of, h]
      rfl
    unfold snapPts
    rw [hk]
  · show hsConsistencyPts (signals_of kills hurts bullets rounds sid tick_rate angles
      combine) = 0
    have hk : (signals_of kills hurts bullets rounds sid tick_rate angles
        combine).hs_variance = none := by
      show hs_variance_raw kills rounds sid = none
      unfold hs_variance_raw hs_per_round
      rw [h]
      simp
      have hnil : List.filterMap (fun _ : RoundR => (none : Option ℚ)) rounds = [] := by
        induction rounds with
        | nil => rfl
        | cons x xs ih => simp [List.filterMap_cons, ih]
      rw [hnil]
      norm_num
    unfold hsConsistencyPts
    rw [hk]

set_option maxRecDepth 4000 in
unseal Rat.add Rat.mul Rat.sub Rat.inv in
theorem claim_C5_zero_kills_witness :
    (compute_anticheat_record [] [] [] [] "p" 64 (fun _ => none)
      (fun _ _ => 0)).hs_rate = 0 ∧
    (compute_anticheat_record [] [] [] [] "p" 64 (fun _ => none)
      (fun _ _ => 0)).snap_scores = [] ∧
    (compute_anticheat_record [] [] [] [] "p" 64 (fun _ => none)
      (fun _ _ => 0)).smoke_kills = 0 ∧
    (compute_anticheat_record [] [] [] [] "p" 64 (fun _ => none)
      (fun _ _ => 0)).smoke_kill_rate = 0 ∧
    hsRatePts (signals_of [] [] [] [] "p" 64 (fun _ => none) (fun _ _ => 0)) = 0 ∧
    smokePts (signals_of [] [] [] [] "p" 64 (fun _ => none) (fun _ _ => 0)) = 0 ∧
    snapPts (signals_of [] [] [] [] "p" 64 (fun _ => none) (fun _ _ => 0)) = 0 ∧
    hsConsistencyPts (signals_of [] [] [] [] "p" 64 (fun _ => none) (fun _ _ => 0)) = 0 :=
  claim_C5_zero_kills [] [] [] [] "p" 64 (fun _ => none) (fun _ _ => 0) (by decide)

set_option maxRecDepth 8000 in
unseal Rat.add Rat.mul Rat.sub Rat.inv in
theorem claim_C5_counterexample :
    player_kills ([] : List KillRow) "p" = [] ∧
    (compute_anticheat_record [] hurtsW5 bulletsW5 roundsW5 "p" 64 (fun _ => none)
      (fun _ _ => 0)).accuracy = 567 / 10 ∧
    (compute_anticheat_record [] hurtsW5 bulletsW5 roundsW5 "p" 64 (fun _ => none)
      (fun _ _ => 0)).suspicion_score = 20 := by
  decide

-- ── C10: list truncation in the reported output ───────────────────────────────

/-- C10: the reported reaction_times, snap_scores, and fov_sight_to_fire
lists hold at most 50 entries (the first 50 of the computed values), while
the aggregates (avg_reaction_ms, min_reaction_ms, max_snap_angle,
fov_avg_sight_to_fire, fov_min_sight_to_fire, engagement_count) are computed
over the full untruncated data. -/
theorem claim_C10_list_truncation (kills : List KillRow) (hurts : List HurtRow)
    (bullets : List BulletRow) (rounds : List RoundR) (sid : String) (tick_rate : ℚ)
    (angles : ℤ → Option (ℚ × ℚ)) (combine : ℚ → ℚ → ℚ) (engs : List Engagement) :
    ((compute_anticheat_record kills hurts bullets rounds sid tick_rate angles
        combine).reaction_times).length ≤ 50 ∧
    (compute_anticheat_record kills hurts bullets rounds sid tick_rate angles
        combine).reaction_times = (reaction_times hurts rounds sid tick_rate).take 50 ∧
    (compute_anticheat_record kills hurts bullets rounds sid tick_rate angles
        combine).avg_reaction_ms = truthyRound1
        (if reaction_times hurts rounds sid tick_rate = [] then none
         else some (listMean (reaction_times hurts rounds sid tick_rate))) ∧
    (compute_anticheat_record kills hurts bullets rounds sid tick_rate angles
        combine).min_reaction_ms =
      truthyRound1 (listMin (reaction_times hurts rounds sid tick_rate)) ∧
    ((compute_anticheat_record kills hurts bullets rounds sid tick_rate angles
        combine).snap_scores).length ≤ 50 ∧
    (compute_anticheat_record kills hurts bullets rounds sid tick_rate angles
        combine).snap_scores =
      ((snap_scores_of kills sid angles combine).take 50).map pyRound1 ∧
    (compute_anticheat_record kills hurts bullets rounds sid tick_rate angles
        combine).max_snap_angle =
      truthyRound1 (listMax (snap_scores_of kills sid angles combine)) ∧
    ((enrich_fov engs).fov_sight_to_fire).length ≤ 50 ∧
    (enrich_fov engs).fov_sight_to_fire =
      (engs.filterMap (fun e => e.sight_to_fire_ms)).take 50 ∧
    (enrich_fov engs).fov_avg_sight_to_fire =
      (if engs.filterMap (fun e => e.sight_to_fire_ms) = [] then none
       else some (pyRound (intMean (engs.filterMap (fun e => e.sight_to_fire_ms))))) ∧
    (enrich_fov engs).fov_min_sight_to_fire =
      (if engs.filterMap (fun e => e.sight_to_fire_ms) = [] then none
       else (intListMin (engs.filterMap (fun e => e.sight_to_fire_ms))).map
         (fun m => pyRound (m : ℚ))) ∧
    (enrich_fov engs).engagement_count = engs.length := by
  refine ⟨?_, rfl, rfl, rfl, ?_, rfl, rfl, ?_, rfl, rfl, rfl, rfl⟩
  · show ((reaction_times hurts rounds sid tick_rate).take 50).length ≤ 50
    exact List.length_take_le _ _
  · show (((snap_scores_of kills sid angles combine).take 50).map pyRound1).length ≤ 50
    rw [List.length_map]
    exact List.length_take_le _ _
  · show ((engs.filterMap (fun e => e.sight_to_fire_ms)).take 50).length ≤ 50
    exact List.length_take_le _ _

-- ── Additional instantiation witnesses ────────────────────────────────────────

theorem claim_C4_zero_conflated_with_null_witness :
    ((compute_anticheat_record killsW4 [] [] roundsW4 "p" 64 (fun _ => none)
        (fun _ _ => 0)).hs_variance = none ↔
      hs_variance_raw killsW4 roundsW4 "p" = none ∨
        hs_variance_raw killsW4 roundsW4 "p" = some 0) ∧
    ((compute_anticheat_record killsW4 [] [] roundsW4 "p" 64 (fun _ => none)
        (fun _ _ => 0)).avg_ttd_ms = none ↔
      avg_ttd_raw [] roundsW4 "p" 64 = none ∨ avg_ttd_raw [] roundsW4 "p" 64 = some 0) :=
  claim_C4_zero_conflated_with_null killsW4 [] [] roundsW4 "p" 64 (fun _ => none)
    (fun _ _ => 0)

theorem claim_C7_round_invariants_witness :
    (∀ r ∈ build_rounds [100] [200],
      r.start_tick < r.end_tick ∧
      ((∃ et ∈ [(200 : ℤ)], r.start_tick < et ∧ r.end_tick = et ∧
          ∀ et2 ∈ [(200 : ℤ)], r.start_tick < et2 → et ≤ et2) ∨
        ((∀ et ∈ [(200 : ℤ)], ¬ r.start_tick < et) ∧
          r.end_tick = r.start_tick + 20000))) ∧
    List.Sorted (fun a b : ℤ => a ≤ b)
      ((build_rounds [100] [200]).map (fun r => r.start_tick)) :=
  claim_C7_round_invariants [100] [200]

theorem claim_C8_reaction_monotonicity_witness :
    suspicionScore { signalsC3 with avg_reaction := some 200 } ≤
      suspicionScore { signalsC3 with avg_reaction := some 100 } :=
  claim_C8_reaction_monotonicity signalsC3

theorem claim_C9_detect_tickrate_witness :
    (detect_tickrate { playback_ticks := some 245760, playback_time := some 1920 } = 64 ∨
      detect_tickrate { playback_ticks := some 245760, playback_time := some 1920 } = 128) ∧
    (detect_tickrate { playback_ticks := some 245760, playback_time := some 1920 } = 128 ↔
      0 < (some (245760 : ℚ)).getD 0 ∧ 0 < (some (1920 : ℚ)).getD 0 ∧
        100 ≤ pyRound ((some (245760 : ℚ)).getD 0 / (some (1920 : ℚ)).getD 0)) :=
  claim_C9_detect_tickrate { playback_ticks := some 245760, playback_time := some 1920 }

theorem claim_C10_list_truncation_witness :
    ((compute_anticheat_record [] [] [] [] "p" 64 (fun _ => none)
        (fun _ _ => 0)).reaction_times).length ≤ 50 ∧
    (compute_anticheat_record [] [] [] [] "p" 64 (fun _ => none)
        (fun _ _ => 0)).reaction_times = (reaction_times [] [] "p" 64).take 50 ∧
    (compute_anticheat_record [] [] [] [] "p" 64 (fun _ => none)
        (fun _ _ => 0)).avg_reaction_ms = truthyRound1
        (if reaction_times [] [] "p" 64 = [] then none
         else some (listMean (reaction_times [] [] "p" 64))) ∧
    (compute_anticheat_record [] [] [] [] "p" 64 (fun _ => none)
        (fun _ _ => 0)).min_reaction_ms =
      truthyRound1 (listMin (reaction_times [] [] "p" 64)) ∧
    ((compute_anticheat_record [] [] [] [] "p" 64 (fun _ => none)
        (fun _ _ => 0)).snap_scores).length ≤ 50 ∧
    (compute_anticheat_record [] [] [] [] "p" 64 (fun _ => none)
        (fun _ _ => 0)).snap_scores =
      ((snap_scores_of [] "p" (fun _ => none) (fun _ _ => 0)).take 50).map pyRound1 ∧
    (compute_anticheat_record [] [] [] [] "p" 64 (fun _ => none)
        (fun _ _ => 0)).max_snap_angle =
      truthyRound1 (listMax (snap_scores_of [] "p" (fun _ => none) (fun _ _ => 0))) ∧
    ((enrich_fov []).fov_sight_to_fire).length ≤ 50 ∧
    (enrich_fov []).fov_sight_to_fire =
      (([] : List Engagement).filterMap (fun e => e.sight_to_fire_ms)).take 50 ∧
    (enrich_fov []).fov_avg_sight_to_fire =
      (if ([] : List Engagement).filterMap (fun e => e.sight_to_fire_ms) = [] then none
       else some (pyRound (intMean (([] : List Engagement).filterMap
         (fun e => e.sight_to_fire_ms))))) ∧
    (enrich_fov []).fov_min_sight_to_fire =
      (if ([] : List Engagement).filterMap (fun e => e.sight_to_fire_ms) = [] then none
       else (intListMin (([] : List Engagement).filterMap
         (fun e => e.sight_to_fire_ms))).map (fun m => pyRound (m : ℚ))) ∧
    (enrich_fov []).engagement_count = ([] : List Engagement).length :=
  claim_C10_list_truncation [] [] [] [] "p" 64 (fun _ => none) (fun _ _ => 0) []
